import Mathlib

/- Shallow embedding of the transaction lifecycle engine of the POSSystems
   repository (src/views/pos.py, src/services/transaction_service.py,
   src/models.py).  Monetary `Numeric` / Python `Decimal` values are modelled
   as `Rat`: every arithmetic operation the embedded code performs on them
   (addition, subtraction, multiplication, division by 100 of a Numeric(10,2)
   value) is exact in Python's `decimal` module at its default 28-digit
   context, so `Rat` is a faithful model.  Raising an exception inside the
   enclosing database session rolls the unit of work back, so fallible
   operations return `Except Err Store` and an `.error` result denotes an
   unchanged store. -/

/- models.py: TransactionStatus enum. -/
inductive TransactionStatus
  | pending
  | completed
  | suspended
  | cancelled
deriving DecidableEq

/- models.py: PaymentMethod enum. -/
inductive PaymentMethod
  | cash
  | card
  | transfer
deriving DecidableEq

/- models.py: TransactionItem row.  quantity is Numeric(10,3) (fractional),
   unit_price / discount_amount / total_price are Numeric(10,2). -/
structure TransactionItem where
  productId : Nat
  quantity : Rat
  unitPrice : Rat
  discountAmount : Rat
  totalPrice : Rat
deriving DecidableEq

/- models.py: Payment row (transaction_id is carried by the owning
   transaction's payments list). -/
structure Payment where
  method : PaymentMethod
  amount : Rat
  referenceNumber : Option String
deriving DecidableEq

/- models.py: Transaction row with its item and payment collections.
   Timestamp fields (created_at, completed_at) and free-text fields are not
   needed by any claim and are omitted. -/
structure Transaction where
  id : Nat
  status : TransactionStatus
  subtotal : Rat
  discountAmount : Rat
  taxAmount : Rat
  totalAmount : Rat
  promoCodeUsed : Option String
  userId : Option Nat
  items : List TransactionItem
  payments : List Payment
deriving DecidableEq

/- models.py: Product row (fields relevant to the claims; stock_quantity is
   an Integer column, hence Int). -/
structure Product where
  id : Nat
  price : Rat
  stockQuantity : Int
  isActive : Bool
deriving DecidableEq

/- models.py: PromoCode row.  max_uses is a nullable Integer ("None =
   unlimited") with check constraint max_uses IS NULL OR max_uses >= 0, and
   current_uses >= 0, so both are modelled over Nat.  Validity-window
   timestamps are modelled as epoch integers. -/
structure PromoCode where
  code : String
  discountType : String
  discountValue : Rat
  minAmount : Rat
  maxUses : Option Nat
  currentUses : Nat
  isActive : Bool
  startDate : Option Int
  endDate : Option Int
deriving DecidableEq

/- The shared relational store plus the per-session active-transaction
   pointer session['current_transaction_id']. -/
structure Store where
  transactions : List Transaction
  products : List Product
  promos : List PromoCode
  sessionCurrent : Option Nat
deriving DecidableEq

/- Error outcomes of the embedded operations; each constructor corresponds
   to one distinct error return / raise site in the source. -/
inductive Err
  | noActiveTransaction
  | transactionUnavailable
  | noPayments
  | paymentMismatch
  | invalidPaymentMethod
  | promoExhaustedAtCompletion
  | noPromoCode
  | promoAlreadyApplied
  | promoNotFoundOrInactive
  | promoNotYetActive
  | promoExpired
  | promoExhausted
  | belowMinAmount
  | promoNotApplied
  | noTransactionId
  | conflictActiveTransaction
  | notFoundOrNotOwned
  | notSuspended
  | typeError
deriving DecidableEq

/- Python str.upper() restricted to the ASCII promo codes the system uses,
   written over the character list so it evaluates structurally. -/
def strUpper (s : String) : String :=
  ⟨s.data.map Char.toUpper⟩

/- Python str.strip(): drop ASCII whitespace from both ends. -/
def isSpaceChar (c : Char) : Bool :=
  c == ' ' || c == '\t' || c == '\n' || c == '\r'

def strStrip (s : String) : String :=
  ⟨((s.data.dropWhile isSpaceChar).reverse.dropWhile isSpaceChar).reverse⟩

/- Python truthiness of an optional string (None and '' are falsy). -/
def strTruthy : Option String → Bool
  | none => false
  | some s => s != ""

/- Python truthiness of an optional integer (None and 0 are falsy). -/
def optNatTruthy : Option Nat → Bool
  | none => false
  | some n => n != 0

/- Python's int() applied to a Decimal: truncation toward zero. -/
def intTrunc (q : Rat) : Int :=
  if 0 ≤ q then ⌊q⌋ else ⌈q⌉

/- The subtotal loop shared by both totals implementations:
   sum of (item.total_price - item.discount_amount) over the items.
   (The `or Decimal('0.00')` guards in the view are identity here because the
   columns carry defaults and are modelled as total.) -/
def subtotalOf (items : List TransactionItem) : Rat :=
  items.foldl (fun acc it => acc + (it.totalPrice - it.discountAmount)) 0

/- src/views/pos.py lines 28-39, update_transaction_totals: tax is computed
   on the full subtotal and the transaction-level discount is subtracted
   only from the final total. -/
def PosView.update_transaction_totals (t : Transaction) : Transaction :=
  let s := subtotalOf t.items
  { t with
      subtotal := s,
      taxAmount := s * (12 / 100),
      totalAmount := s + s * (12 / 100) - t.discountAmount }

/- src/services/transaction_service.py lines 69-97,
   TransactionService.update_transaction_totals: an empty item collection
   zeroes all four derived fields including discount_amount; otherwise tax is
   computed on the after-discount amount. -/
def TransactionService.update_transaction_totals (t : Transaction) : Transaction :=
  if t.items.isEmpty then
    { t with subtotal := 0, discountAmount := 0, taxAmount := 0, totalAmount := 0 }
  else
    let s := subtotalOf t.items
    let afterDiscount := s - t.discountAmount
    { t with
        subtotal := s,
        taxAmount := afterDiscount * (12 / 100),
        totalAmount := afterDiscount + afterDiscount * (12 / 100) }

/- Transaction.query.get / filter_by(id=...).first() on the store. -/
def getTransaction (store : Store) (tid : Nat) : Option Transaction :=
  store.transactions.find? (fun t => t.id == tid)

/- Writing a mutated ORM row back: replace the row with the same id. -/
def replaceTransaction (ts : List Transaction) (t : Transaction) : List Transaction :=
  ts.map (fun u => if u.id == t.id then t else u)

/- One entry of the request's payments list: payment_data['method'],
   payment_data['amount'], payment_data.get('reference_number'). -/
structure PaymentRequest where
  method : String
  amount : Rat
  referenceNumber : Option String
deriving DecidableEq

/- sum(Decimal(str(p['amount'])) for p in payments); Python's sum starts
   from 0 and Decimal+int arithmetic is exact. -/
def sumPayments (reqs : List PaymentRequest) : Rat :=
  reqs.foldl (fun acc r => acc + r.amount) 0

/- PaymentMethod(payment_data['method']): the enum constructor raises
   ValueError on an unknown method string. -/
def parsePaymentMethod : String → Option PaymentMethod
  | "cash" => some PaymentMethod.cash
  | "card" => some PaymentMethod.card
  | "transfer" => some PaymentMethod.transfer
  | _ => none

/- The payment-record creation loop of complete_transaction: builds one
   Payment per request, failing on the first unknown method. -/
def buildPayments : List PaymentRequest → Except Err (List Payment)
  | [] => .ok []
  | r :: rs =>
    match parsePaymentMethod r.method with
    | none => .error .invalidPaymentMethod
    | some m => (buildPayments rs).map (fun ps => ⟨m, r.amount, r.referenceNumber⟩ :: ps)

/- The stock-update loop of complete_transaction (pos.py 566-568,
   transaction_service.py 120-122):
   for item in transaction.items: item.product.stock_quantity -= int(item.quantity). -/
def decrementStock (products : List Product) (items : List TransactionItem) : List Product :=
  items.foldl
    (fun ps it =>
      ps.map (fun p =>
        if p.id == it.productId then
          { p with stockQuantity := p.stockQuantity - intTrunc it.quantity }
        else p))
    products

/- Total truncated quantity the completion loop subtracts from the product
   with the given id. -/
def truncSum (items : List TransactionItem) (pid : Nat) : Int :=
  match items with
  | [] => 0
  | it :: rest => (if it.productId == pid then intTrunc it.quantity else 0) + truncSum rest pid

/- db.session.query(PromoCode).filter(func.upper(PromoCode.code) == code,
   PromoCode.is_active == True).first(): first active promo whose code
   matches case-insensitively. -/
def promoMatch (p : PromoCode) (code : String) : Bool :=
  strUpper p.code == strUpper code && p.isActive

def findActivePromo (promos : List PromoCode) (code : String) : Option PromoCode :=
  promos.find? (fun p => promoMatch p code)

/- promo.current_uses += 1 on the row returned by the query. -/
def bumpUses (p : PromoCode) : PromoCode :=
  { p with currentUses := p.currentUses + 1 }

/- Mutating the first row matched by a predicate, leaving the rest alone. -/
def updateFirst (l : List PromoCode) (pred : PromoCode → Bool) (f : PromoCode → PromoCode) :
    List PromoCode :=
  match l with
  | [] => []
  | x :: xs => if pred x then f x :: xs else x :: updateFirst xs pred f

/- `if promo.max_uses and promo.current_uses >= promo.max_uses`: Python
   truthiness makes both None and 0 skip the exhaustion check. -/
def promoUsesExhausted (p : PromoCode) : Bool :=
  match p.maxUses with
  | none => false
  | some m => m != 0 && decide (m ≤ p.currentUses)

/- Discount computation of apply_promo_to_transaction (pos.py 882-889):
   percentage → subtotal * (discount_value / 100), otherwise the fixed
   value; min(discount, subtotal) clamps it to the subtotal. -/
def promoDiscount (p : PromoCode) (subtotal : Rat) : Rat :=
  let d := if p.discountType == "percentage" then subtotal * (p.discountValue / 100)
           else p.discountValue
  if subtotal < d then subtotal else d

/- Final store writes shared by both completion implementations: payments
   attached, status := COMPLETED, user_id := current user, stock written,
   promo counters written, session pointer cleared. -/
def completeFinish (store : Store) (t : Transaction) (newPays : List Payment)
    (products' : List Product) (promos' : List PromoCode) (uid : Option Nat) : Store :=
  { store with
      transactions := replaceTransaction store.transactions
        { t with status := .completed, userId := uid, payments := t.payments ++ newPays },
      products := products',
      promos := promos',
      sessionCurrent := none }

/- src/views/pos.py lines 533-633, complete_transaction: the transaction is
   the session's current one; payments must be nonempty and sum to
   total_amount within 0.01; stock is decremented by int(quantity) with no
   re-check; an applied promo that is still found active is re-validated for
   exhaustion (rollback on failure) and its counter incremented; a promo
   that is no longer found is silently skipped. -/
def PosView.complete_transaction (store : Store) (reqs : List PaymentRequest)
    (currentUser : Option Nat) : Except Err Store :=
  match store.sessionCurrent with
  | none => .error .noActiveTransaction
  | some tid =>
    match getTransaction store tid with
    | none => .error .transactionUnavailable
    | some t =>
      if t.status = TransactionStatus.pending then
        if reqs.isEmpty then .error .noPayments
        else if (1 : Rat) / 100 < |sumPayments reqs - t.totalAmount| then
          .error .paymentMismatch
        else
          match buildPayments reqs with
          | .error e => .error e
          | .ok newPays =>
            let products' := decrementStock store.products t.items
            if strTruthy t.promoCodeUsed then
              let code := t.promoCodeUsed.getD ""
              match findActivePromo store.promos code with
              | some promo =>
                if promoUsesExhausted promo then .error .promoExhaustedAtCompletion
                else
                  .ok (completeFinish store t newPays products'
                    (updateFirst store.promos (fun p => promoMatch p code) bumpUses)
                    currentUser)
              | none => .ok (completeFinish store t newPays products' store.promos currentUser)
            else .ok (completeFinish store t newPays products' store.promos currentUser)
      else .error .transactionUnavailable

/- src/services/transaction_service.py lines 99-161,
   TransactionService.complete_transaction: same logic with an explicit
   transaction id and without the nonempty-payments pre-check. -/
def TransactionService.complete_transaction (store : Store) (tid : Nat)
    (reqs : List PaymentRequest) (currentUser : Option Nat) : Except Err Store :=
  match getTransaction store tid with
  | none => .error .transactionUnavailable
  | some t =>
    if t.status = TransactionStatus.pending then
      if (1 : Rat) / 100 < |sumPayments reqs - t.totalAmount| then
        .error .paymentMismatch
      else
        match buildPayments reqs with
        | .error e => .error e
        | .ok newPays =>
          let products' := decrementStock store.products t.items
          if strTruthy t.promoCodeUsed then
            let code := t.promoCodeUsed.getD ""
            match findActivePromo store.promos code with
            | some promo =>
              if promoUsesExhausted promo then .error .promoExhaustedAtCompletion
              else
                .ok (completeFinish store t newPays products'
                  (updateFirst store.promos (fun p => promoMatch p code) bumpUses)
                  currentUser)
            | none => .ok (completeFinish store t newPays products' store.promos currentUser)
          else .ok (completeFinish store t newPays products' store.promos currentUser)
    else .error .transactionUnavailable

/- src/views/pos.py lines 635-661, suspend_transaction: the session's
   transaction is set to SUSPENDED with no check of its current status. -/
def PosView.suspend_transaction (store : Store) : Except Err Store :=
  match store.sessionCurrent with
  | none => .error .noActiveTransaction
  | some tid =>
    match getTransaction store tid with
    | none => .error .transactionUnavailable
    | some t =>
      .ok { store with
              transactions := replaceTransaction store.transactions
                { t with status := .suspended },
              sessionCurrent := none }

/- src/services/transaction_service.py lines 163-176,
   TransactionService.suspend_transaction: requires PENDING. -/
def TransactionService.suspend_transaction (store : Store) (tid : Nat) : Except Err Store :=
  match getTransaction store tid with
  | none => .error .transactionUnavailable
  | some t =>
    if t.status = TransactionStatus.pending then
      .ok { store with
              transactions := replaceTransaction store.transactions
                { t with status := .suspended },
              sessionCurrent := none }
    else .error .transactionUnavailable

/- Transaction.query.filter_by(id=transaction_id, user_id=current_user.id).first(). -/
def findOwnedTransaction (store : Store) (tid : Nat) (uid : Nat) : Option Transaction :=
  store.transactions.find? (fun t => t.id == tid && t.userId == some uid)

/- src/views/pos.py lines 694-741, restore_transaction: rejects when the
   session's current transaction exists and is PENDING; then looks the
   target up by id and owner, requires SUSPENDED, sets it PENDING and makes
   it the session's current transaction.  Only the session pointer is
   consulted for the conflict check, not the cashier's other rows. -/
def PosView.restore_transaction (store : Store) (tid : Option Nat) (uid : Nat) :
    Except Err Store :=
  if !optNatTruthy tid then .error .noTransactionId
  else
    let conflict :=
      if optNatTruthy store.sessionCurrent then
        match getTransaction store (store.sessionCurrent.getD 0) with
        | some ct => ct.status == TransactionStatus.pending
        | none => false
      else false
    if conflict then .error .conflictActiveTransaction
    else
      match findOwnedTransaction store (tid.getD 0) uid with
      | none => .error .notFoundOrNotOwned
      | some t =>
        if t.status = TransactionStatus.suspended then
          .ok { store with
                  transactions := replaceTransaction store.transactions
                    { t with status := .pending },
                  sessionCurrent := some t.id }
        else .error .notSuspended

/- `if promo.start_date and promo.start_date > now` / `if promo.end_date and
   promo.end_date < now` (pos.py 867-871). -/
def promoStartBlocked (p : PromoCode) (now : Int) : Bool :=
  match p.startDate with
  | none => false
  | some s => decide (now < s)

def promoEndBlocked (p : PromoCode) (now : Int) : Bool :=
  match p.endDate with
  | none => false
  | some e => decide (e < now)

/- src/views/pos.py lines 823-908, apply_promo_to_transaction: the request
   code is uppercased and stripped; validation runs in source order and the
   discount is stored on the transaction together with the promo code string,
   followed by the POS-view totals recomputation.  current_uses is never
   touched here. -/
def PosView.apply_promo_to_transaction (store : Store) (rawCode : String) (now : Int) :
    Except Err Store :=
  let code := strStrip (strUpper rawCode)
  match store.sessionCurrent with
  | none => .error .noActiveTransaction
  | some tid =>
    if code == "" then .error .noPromoCode
    else
      match getTransaction store tid with
      | none => .error .transactionUnavailable
      | some t =>
        if t.status = TransactionStatus.pending then
          if strTruthy t.promoCodeUsed then .error .promoAlreadyApplied
          else
            match findActivePromo store.promos code with
            | none => .error .promoNotFoundOrInactive
            | some promo =>
              if promoStartBlocked promo now then .error .promoNotYetActive
              else if promoEndBlocked promo now then .error .promoExpired
              else if promoUsesExhausted promo then .error .promoExhausted
              else if t.subtotal < promo.minAmount then .error .belowMinAmount
              else
                .ok { store with
                        transactions := replaceTransaction store.transactions
                          (PosView.update_transaction_totals
                            { t with
                                discountAmount := promoDiscount promo t.subtotal,
                                promoCodeUsed := some code }) }
        else .error .transactionUnavailable

/- src/views/pos.py lines 910-944, remove_promo_from_transaction: requires
   PENDING and an applied promo; clears discount and promo reference and
   recomputes totals.  current_uses is never touched. -/
def PosView.remove_promo_from_transaction (store : Store) : Except Err Store :=
  match store.sessionCurrent with
  | none => .error .noActiveTransaction
  | some tid =>
    match getTransaction store tid with
    | none => .error .transactionUnavailable
    | some t =>
      if t.status = TransactionStatus.pending then
        if strTruthy t.promoCodeUsed then
          .ok { store with
                  transactions := replaceTransaction store.transactions
                    (PosView.update_transaction_totals
                      { t with discountAmount := 0, promoCodeUsed := none }) }
        else .error .promoNotApplied
      else .error .transactionUnavailable

/- Spec-side wording of claim C5's check (5), amended: a set and nonzero
   max_uses requires current_uses < max_uses; max_uses = 0 behaves like the
   unset (unlimited) case because of Python truthiness in the source. -/
def specMaxUsesCheck (p : PromoCode) : Bool :=
  match p.maxUses with
  | none => true
  | some m => if m != 0 then decide (p.currentUses < m) else true

/- Spec-side definition for claim C5: the ApplyPromo validation sequence as
   the (amended) claim words it — (1) transaction exists and is PENDING,
   (2) no promo already applied, (3) code exists case-insensitively and is
   active, (4) now within [start_date, end_date] for whichever bounds are
   set, (5) the amended max_uses check, (6) subtotal ≥ min_amount — with the
   first failing check determining the error, and the discount applied only
   if all pass.  The route prechecks (session pointer present, nonempty
   code) are mirrored unchanged. -/
def applyPromoSpecOrdered (store : Store) (rawCode : String) (now : Int) :
    Except Err Store :=
  let code := strStrip (strUpper rawCode)
  match store.sessionCurrent with
  | none => .error .noActiveTransaction
  | some tid =>
    if code == "" then .error .noPromoCode
    else
      match getTransaction store tid with
      | none => .error .transactionUnavailable
      | some t =>
        if t.status = TransactionStatus.pending then
          if strTruthy t.promoCodeUsed then .error .promoAlreadyApplied
          else
            match findActivePromo store.promos code with
            | none => .error .promoNotFoundOrInactive
            | some promo =>
              if promoStartBlocked promo now then .error .promoNotYetActive
              else if promoEndBlocked promo now then .error .promoExpired
              else if !specMaxUsesCheck promo then .error .promoExhausted
              else if t.subtotal < promo.minAmount then .error .belowMinAmount
              else
                .ok { store with
                        transactions := replaceTransaction store.transactions
                          (PosView.update_transaction_totals
                            { t with
                                discountAmount := promoDiscount promo t.subtotal,
                                promoCodeUsed := some code }) }
        else .error .transactionUnavailable

/- Dynamic numeric values for apply_discount (pos.py 782-821): the route
   converts the request value with float(), and Python raises TypeError on
   any arithmetic mixing Decimal with float, while comparisons between them
   are exact.  The rational payload of a .flt is the exact value of the
   Python float; no arithmetic result of a float ever flows into a
   successful outcome below, so float rounding never has to be modelled. -/
inductive PyNum
  | dec (q : Rat)
  | flt (q : Rat)
deriving DecidableEq

def pyVal : PyNum → Rat
  | .dec q => q
  | .flt q => q

def pyMul : PyNum → PyNum → Except Err PyNum
  | .dec a, .dec b => .ok (.dec (a * b))
  | .flt a, .flt b => .ok (.flt (a * b))
  | _, _ => .error .typeError

def pySub : PyNum → PyNum → Except Err PyNum
  | .dec a, .dec b => .ok (.dec (a - b))
  | .flt a, .flt b => .ok (.flt (a - b))
  | _, _ => .error .typeError

/- Mixed-type comparison: exact in Python. -/
def pyLt (a b : PyNum) : Bool :=
  decide (pyVal a < pyVal b)

/- `x or Decimal('0.00')`: numeric zero of either type is falsy. -/
def pyOrZero (a : PyNum) : PyNum :=
  if pyVal a == 0 then .dec 0 else a

/- A transaction whose discount_amount may dynamically be a float after
   apply_discount assigned one. -/
structure DynTransaction where
  subtotal : Rat
  discountAmount : PyNum
  taxAmount : Rat
  totalAmount : Rat
  items : List TransactionItem
deriving DecidableEq

/- update_transaction_totals (pos.py 28-39) evaluated on a dynamically typed
   discount_amount: total_amount = subtotal + tax_amount -
   (discount_amount or Decimal('0.00')) raises TypeError when the stored
   discount is a nonzero float. -/
def updateTotalsDyn (t : DynTransaction) : Except Err DynTransaction :=
  let s := subtotalOf t.items
  let tax := s * (12 / 100)
  (pySub (.dec (s + tax)) (pyOrZero t.discountAmount)).map
    (fun total => { t with subtotal := s, taxAmount := tax, totalAmount := pyVal total })

/- src/views/pos.py lines 782-821, apply_discount: discount_value =
   float(data['value']); percentage → transaction.subtotal * (value / 100)
   (Decimal * float), otherwise the float value itself;
   min(discount, subtotal) clamps; then totals are recomputed.  `value` is
   the exact rational value of the Python float. -/
def PosView.apply_discount (t : DynTransaction) (dtype : String) (value : Rat) :
    Except Err (DynTransaction × PyNum) :=
  match (if dtype == "percentage"
         then pyMul (.dec t.subtotal) (.flt (value / 100))
         else .ok (.flt value)) with
  | .error e => .error e
  | .ok d =>
    let clamped := if pyLt (.dec t.subtotal) d then .dec t.subtotal else d
    (updateTotalsDyn { t with discountAmount := clamped }).map (fun t' => (t', clamped))

/- Concrete inputs for claim C1. -/
def c1Item : TransactionItem :=
  { productId := 1, quantity := 1, unitPrice := 100, discountAmount := 0, totalPrice := 100 }

def c1Transaction : Transaction :=
  { id := 1, status := .pending, subtotal := 100, discountAmount := 10, taxAmount := 0,
    totalAmount := 0, promoCodeUsed := none, userId := none, items := [c1Item], payments := [] }

/- Concrete inputs for claim C10. -/
def c10Item : TransactionItem :=
  { productId := 7, quantity := 2, unitPrice := 50, discountAmount := 0, totalPrice := 100 }

def c10Transaction : Transaction :=
  { id := 2, status := .pending, subtotal := 100, discountAmount := 10, taxAmount := 0,
    totalAmount := 0, promoCodeUsed := none, userId := none, items := [c10Item], payments := [] }

/- A C10 input with zero transaction-level discount. -/
def c10ZeroTransaction : Transaction :=
  { id := 3, status := .pending, subtotal := 100, discountAmount := 0, taxAmount := 0,
    totalAmount := 0, promoCodeUsed := none, userId := none, items := [c10Item],
    payments := [] }

/- Concrete inputs for claim C2: a pending transaction holding 2 units of a
   product whose stock has meanwhile dropped to 1. -/
def c2Item : TransactionItem :=
  { productId := 1, quantity := 2, unitPrice := 100, discountAmount := 0, totalPrice := 200 }

def c2Transaction : Transaction :=
  { id := 1, status := .pending, subtotal := 200, discountAmount := 0, taxAmount := 24,
    totalAmount := 224, promoCodeUsed := none, userId := some 1, items := [c2Item],
    payments := [] }

def c2Product : Product :=
  { id := 1, price := 100, stockQuantity := 1, isActive := true }

def c2Store : Store :=
  { transactions := [c2Transaction], products := [c2Product], promos := [],
    sessionCurrent := some 1 }

def c2Payments : List PaymentRequest :=
  [{ method := "cash", amount := 224, referenceNumber := none }]

def c2OutTransaction : Transaction :=
  { id := 1, status := .completed, subtotal := 200, discountAmount := 0, taxAmount := 24,
    totalAmount := 224, promoCodeUsed := none, userId := some 1, items := [c2Item],
    payments := [{ method := .cash, amount := 224, referenceNumber := none }] }

def c2OutProduct : Product :=
  { id := 1, price := 100, stockQuantity := -1, isActive := true }

def c2OutStore : Store :=
  { transactions := [c2OutTransaction], products := [c2OutProduct], promos := [],
    sessionCurrent := none }

/- Concrete inputs for claim C3: total_amount 112.00 but only 100.00 paid. -/
def c3Transaction : Transaction :=
  { id := 1, status := .pending, subtotal := 100, discountAmount := 0, taxAmount := 12,
    totalAmount := 112, promoCodeUsed := none, userId := some 1, items := [], payments := [] }

def c3Store : Store :=
  { transactions := [c3Transaction], products := [], promos := [], sessionCurrent := some 1 }

def c3Payments : List PaymentRequest :=
  [{ method := "cash", amount := 100, referenceNumber := none }]

/- Concrete inputs for claim C4's counterexample: the applied promo was
   deactivated between application and completion. -/
def c4Item : TransactionItem :=
  { productId := 1, quantity := 1, unitPrice := 100, discountAmount := 0, totalPrice := 100 }

def c4Transaction : Transaction :=
  { id := 1, status := .pending, subtotal := 100, discountAmount := 10, taxAmount := 12,
    totalAmount := 102, promoCodeUsed := some "SAVE", userId := some 1, items := [c4Item],
    payments := [] }

def c4Promo : PromoCode :=
  { code := "SAVE", discountType := "percentage", discountValue := 10, minAmount := 0,
    maxUses := some 5, currentUses := 3, isActive := false, startDate := none, endDate := none }

def c4Product : Product :=
  { id := 1, price := 100, stockQuantity := 5, isActive := true }

def c4Store : Store :=
  { transactions := [c4Transaction], products := [c4Product], promos := [c4Promo],
    sessionCurrent := some 1 }

def c4Payments : List PaymentRequest :=
  [{ method := "cash", amount := 102, referenceNumber := none }]

def c4OutTransaction : Transaction :=
  { id := 1, status := .completed, subtotal := 100, discountAmount := 10, taxAmount := 12,
    totalAmount := 102, promoCodeUsed := some "SAVE", userId := some 1, items := [c4Item],
    payments := [{ method := .cash, amount := 102, referenceNumber := none }] }

def c4OutProduct : Product :=
  { id := 1, price := 100, stockQuantity := 4, isActive := true }

def c4OutStore : Store :=
  { transactions := [c4OutTransaction], products := [c4OutProduct], promos := [c4Promo],
    sessionCurrent := none }

/- Concrete inputs for claim C4's witness: the same completion with the
   promo still active. -/
def c4wPromo : PromoCode :=
  { code := "SAVE", discountType := "percentage", discountValue := 10, minAmount := 0,
    maxUses := some 5, currentUses := 3, isActive := true, startDate := none, endDate := none }

def c4wStore : Store :=
  { transactions := [c4Transaction], products := [c4Product], promos := [c4wPromo],
    sessionCurrent := some 1 }

def c4wOutPromo : PromoCode :=
  { code := "SAVE", discountType := "percentage", discountValue := 10, minAmount := 0,
    maxUses := some 5, currentUses := 4, isActive := true, startDate := none, endDate := none }

def c4wOutStore : Store :=
  { transactions := [c4OutTransaction], products := [c4OutProduct], promos := [c4wOutPromo],
    sessionCurrent := none }

/- Concrete inputs for claim C5: a promo with max_uses = 0 (set, and already
   at current_uses = max_uses), otherwise valid for the transaction. -/
def c5Item : TransactionItem :=
  { productId := 1, quantity := 2, unitPrice := 320, discountAmount := 0, totalPrice := 640 }

def c5Transaction : Transaction :=
  { id := 1, status := .pending, subtotal := 640, discountAmount := 0, taxAmount := 384 / 5,
    totalAmount := 3584 / 5, promoCodeUsed := none, userId := some 1, items := [c5Item],
    payments := [] }

def c5Promo : PromoCode :=
  { code := "SAVE10", discountType := "percentage", discountValue := 10, minAmount := 500,
    maxUses := some 0, currentUses := 0, isActive := true, startDate := none, endDate := none }

def c5Store : Store :=
  { transactions := [c5Transaction], products := [], promos := [c5Promo],
    sessionCurrent := some 1 }

def c5OutTransaction : Transaction :=
  { id := 1, status := .pending, subtotal := 640, discountAmount := 64, taxAmount := 384 / 5,
    totalAmount := 3264 / 5, promoCodeUsed := some "SAVE10", userId := some 1,
    items := [c5Item], payments := [] }

def c5OutStore : Store :=
  { transactions := [c5OutTransaction], products := [], promos := [c5Promo],
    sessionCurrent := some 1 }

/- Concrete inputs for claim C6: a fractional quantity of 2.5 units against
   a stock of 10. -/
def c6Item : TransactionItem :=
  { productId := 1, quantity := 5 / 2, unitPrice := 100, discountAmount := 0, totalPrice := 250 }

def c6Transaction : Transaction :=
  { id := 1, status := .pending, subtotal := 250, discountAmount := 0, taxAmount := 30,
    totalAmount := 280, promoCodeUsed := none, userId := some 1, items := [c6Item],
    payments := [] }

def c6Product : Product :=
  { id := 1, price := 100, stockQuantity := 10, isActive := true }

def c6Store : Store :=
  { transactions := [c6Transaction], products := [c6Product], promos := [],
    sessionCurrent := some 1 }

def c6Payments : List PaymentRequest :=
  [{ method := "cash", amount := 280, referenceNumber := none }]

def c6OutTransaction : Transaction :=
  { id := 1, status := .completed, subtotal := 250, discountAmount := 0, taxAmount := 30,
    totalAmount := 280, promoCodeUsed := none, userId := some 1, items := [c6Item],
    payments := [{ method := .cash, amount := 280, referenceNumber := none }] }

def c6OutProduct : Product :=
  { id := 1, price := 100, stockQuantity := 8, isActive := true }

def c6OutStore : Store :=
  { transactions := [c6OutTransaction], products := [c6OutProduct], promos := [],
    sessionCurrent := none }

/- Concrete inputs for claim C7: the session's current transaction is
   already COMPLETED. -/
def c7Transaction : Transaction :=
  { id := 1, status := .completed, subtotal := 100, discountAmount := 0, taxAmount := 12,
    totalAmount := 112, promoCodeUsed := none, userId := some 1, items := [], payments := [] }

def c7Store : Store :=
  { transactions := [c7Transaction], products := [], promos := [], sessionCurrent := some 1 }

def c7OutTransaction : Transaction :=
  { id := 1, status := .suspended, subtotal := 100, discountAmount := 0, taxAmount := 12,
    totalAmount := 112, promoCodeUsed := none, userId := some 1, items := [], payments := [] }

def c7OutStore : Store :=
  { transactions := [c7OutTransaction], products := [], promos := [], sessionCurrent := none }

/- Concrete inputs for claim C8: cashier 1 owns a PENDING transaction (id 1)
   that the session pointer does not reference, and a SUSPENDED one (id 2). -/
def c8PendingT : Transaction :=
  { id := 1, status := .pending, subtotal := 0, discountAmount := 0, taxAmount := 0,
    totalAmount := 0, promoCodeUsed := none, userId := some 1, items := [], payments := [] }

def c8SuspendedT : Transaction :=
  { id := 2, status := .suspended, subtotal := 50, discountAmount := 0, taxAmount := 6,
    totalAmount := 56, promoCodeUsed := none, userId := some 1, items := [], payments := [] }

def c8Store : Store :=
  { transactions := [c8PendingT, c8SuspendedT], products := [], promos := [],
    sessionCurrent := none }

def c8RestoredT : Transaction :=
  { id := 2, status := .pending, subtotal := 50, discountAmount := 0, taxAmount := 6,
    totalAmount := 56, promoCodeUsed := none, userId := some 1, items := [], payments := [] }

def c8OutStore : Store :=
  { transactions := [c8PendingT, c8RestoredT], products := [], promos := [],
    sessionCurrent := some 2 }

/- Same rows, but the session pointer references the PENDING transaction. -/
def c8ConflictStore : Store :=
  { transactions := [c8PendingT, c8SuspendedT], products := [], promos := [],
    sessionCurrent := some 1 }

/- Concrete input for claim C9: a transaction with Decimal subtotal 100.00
   and no discount yet. -/
def c9Item : TransactionItem :=
  { productId := 1, quantity := 1, unitPrice := 100, discountAmount := 0, totalPrice := 100 }

def c9Dyn : DynTransaction :=
  { subtotal := 100, discountAmount := .dec 0, taxAmount := 12, totalAmount := 112,
    items := [c9Item] }

/-- C1 counterexample: with one item of total_price 100.00 and a
transaction-level discount of 10.00, the POS-view totals recomputation
produces tax_amount = 12.00 and total_amount = 102.00, whereas the claim
requires tax_amount = (100-10)*0.12 = 10.80 and
total_amount = (100-10)*1.12 = 100.80. -/
theorem c1_pos_totals_counterexample :
    (PosView.update_transaction_totals c1Transaction).taxAmount = 12
    ∧ ((PosView.update_transaction_totals c1Transaction).subtotal
        - (PosView.update_transaction_totals c1Transaction).discountAmount) * (12 / 100)
        = 54 / 5
    ∧ (12 : Rat) ≠ 54 / 5
    ∧ (PosView.update_transaction_totals c1Transaction).totalAmount = 102
    ∧ ((PosView.update_transaction_totals c1Transaction).subtotal
        - (PosView.update_transaction_totals c1Transaction).discountAmount) * (1 + 12 / 100)
        = 504 / 5
    ∧ (102 : Rat) ≠ 504 / 5 := by
  refine ⟨?_, ?_, ?_, ?_, ?_, ?_⟩ <;>
    norm_num [PosView.update_transaction_totals, c1Transaction, c1Item, subtotalOf]

/-- C1 (amended): after a recomputation by the transaction service the
derived fields satisfy subtotal = Σ(total_price - discount_amount),
tax_amount = (subtotal - discount_amount) * 0.12 and
total_amount = (subtotal - discount_amount) * 1.12; after a recomputation by
the POS view, subtotal is the same sum but tax_amount = subtotal * 0.12 and
total_amount = subtotal + tax_amount - discount_amount, which matches the
claimed equations only when the transaction-level discount is zero. -/
theorem c1_totals_after_recomputation (t : Transaction) :
    ((TransactionService.update_transaction_totals t).subtotal = subtotalOf t.items
      ∧ (TransactionService.update_transaction_totals t).taxAmount
          = ((TransactionService.update_transaction_totals t).subtotal
              - (TransactionService.update_transaction_totals t).discountAmount) * (12 / 100)
      ∧ (TransactionService.update_transaction_totals t).totalAmount
          = ((TransactionService.update_transaction_totals t).subtotal
              - (TransactionService.update_transaction_totals t).discountAmount)
            * (1 + 12 / 100))
    ∧ ((PosView.update_transaction_totals t).subtotal = subtotalOf t.items
      ∧ (PosView.update_transaction_totals t).taxAmount
          = (PosView.update_transaction_totals t).subtotal * (12 / 100)
      ∧ (PosView.update_transaction_totals t).totalAmount
          = (PosView.update_transaction_totals t).subtotal
              + (PosView.update_transaction_totals t).taxAmount
              - (PosView.update_transaction_totals t).discountAmount) := by
  constructor
  · by_cases h : t.items.isEmpty
    · rw [List.isEmpty_iff] at h
      refine ⟨?_, ?_, ?_⟩ <;>
        simp [TransactionService.update_transaction_totals, h, subtotalOf]
    · refine ⟨?_, ?_, ?_⟩
      · simp only [TransactionService.update_transaction_totals, h, if_false,
          Bool.false_eq_true]
      · simp only [TransactionService.update_transaction_totals, h, if_false,
          Bool.false_eq_true]
      · simp only [TransactionService.update_transaction_totals, h, if_false,
          Bool.false_eq_true]
        ring
  · refine ⟨rfl, rfl, ?_⟩
    simp only [PosView.update_transaction_totals]

/-- C10 counterexample: on a transaction with one item of total_price 100.00
and discount_amount 10.00 the POS-view recomputation yields
tax_amount = 12.00 while the service recomputation yields
tax_amount = 10.80, so the two implementations differ. -/
theorem c10_totals_implementations_differ :
    (PosView.update_transaction_totals c10Transaction).taxAmount = 12
    ∧ (TransactionService.update_transaction_totals c10Transaction).taxAmount = 54 / 5
    ∧ PosView.update_transaction_totals c10Transaction
        ≠ TransactionService.update_transaction_totals c10Transaction := by
  refine ⟨?_, ?_, ?_⟩
  · norm_num [PosView.update_transaction_totals, c10Transaction, c10Item, subtotalOf]
  · norm_num [TransactionService.update_transaction_totals, c10Transaction, c10Item, subtotalOf]
  · intro h
    have htax := congrArg Transaction.taxAmount h
    norm_num [PosView.update_transaction_totals, TransactionService.update_transaction_totals,
      c10Transaction, c10Item, subtotalOf] at htax

/-- C10 (amended): the two totals recomputations agree (on every derived
field, including what is written to discount_amount on an empty item
collection) exactly when the transaction-level discount is zero; whenever a
nonzero discount is set they produce different results, because the view
taxes the full subtotal while the service taxes the after-discount amount,
and on empty item collections the service zeroes discount_amount while the
view leaves it unchanged. -/
theorem c10_totals_agree_iff_no_discount (t : Transaction) :
    PosView.update_transaction_totals t = TransactionService.update_transaction_totals t
      ↔ t.discountAmount = 0 := by
  constructor
  · intro h
    by_cases he : t.items.isEmpty
    · have hd := congrArg Transaction.discountAmount h
      simp [PosView.update_transaction_totals, TransactionService.update_transaction_totals,
        he] at hd
      exact hd
    · have htax := congrArg Transaction.taxAmount h
      simp [PosView.update_transaction_totals, TransactionService.update_transaction_totals,
        he] at htax
      have h12 : (12 / 100 : Rat) ≠ 0 := by norm_num
      have : t.discountAmount * (12 / 100) = 0 := by ring_nf; ring_nf at htax; linarith
      rcases mul_eq_zero.mp this with h0 | h0
      · exact h0
      · exact absurd h0 h12
  · intro h
    by_cases he : t.items.isEmpty
    · rw [List.isEmpty_iff] at he
      cases t with
      | mk id status subtotal d tax total promo uid items pays =>
        simp only at h he
        subst h
        subst he
        simp [PosView.update_transaction_totals, TransactionService.update_transaction_totals,
          subtotalOf]
    · cases t with
      | mk id status subtotal d tax total promo uid items pays =>
        simp only at h
        subst h
        simp only [PosView.update_transaction_totals,
          TransactionService.update_transaction_totals, he, if_false, Bool.false_eq_true]
        simp only [Transaction.mk.injEq, true_and, and_true]
        constructor
        · ring
        · ring

/- Helper: bumping the matched promo row preserves the fields findActivePromo
   matches on, so the lookup after the increment returns the bumped row. -/
theorem findActivePromo_updateFirst (l : List PromoCode) (code : String) (p : PromoCode)
    (h : findActivePromo l code = some p) :
    findActivePromo (updateFirst l (fun q => promoMatch q code) bumpUses) code
      = some (bumpUses p) := by
  induction l with
  | nil => simp [findActivePromo] at h
  | cons x xs ih =>
    simp only [findActivePromo] at h ⊢
    by_cases hx : promoMatch x code
    · rw [show List.find? (fun q => promoMatch q code) (x :: xs) = some x from
          List.find?_cons_of_pos _ hx] at h
      injection h with h
      subst h
      simp only [updateFirst, hx, if_true]
      exact List.find?_cons_of_pos _ hx
    · have hx0 : promoMatch x code = false := by
        simpa using hx
      rw [show List.find? (fun q => promoMatch q code) (x :: xs)
            = List.find? (fun q => promoMatch q code) xs from
          List.find?_cons_of_neg _ hx] at h
      simp only [updateFirst, hx0, Bool.false_eq_true, if_false]
      rw [show List.find? (fun q => promoMatch q code)
              (x :: updateFirst xs (fun q => promoMatch q code) bumpUses)
            = List.find? (fun q => promoMatch q code)
                (updateFirst xs (fun q => promoMatch q code) bumpUses) from
          List.find?_cons_of_neg _ hx]
      exact ih (by simpa [findActivePromo] using h)

/- Helper: the completion stock loop subtracts, for each product, the sum of
   the truncated quantities of the items that reference it. -/
theorem decrementStock_eq (items : List TransactionItem) (products : List Product) :
    decrementStock products items
      = products.map (fun p =>
          { p with stockQuantity := p.stockQuantity - truncSum items p.id }) := by
  induction items generalizing products with
  | nil =>
    have hp : ∀ p : Product,
        ({ p with stockQuantity := p.stockQuantity - truncSum [] p.id } : Product) = p := by
      intro p
      simp [truncSum]
    simp [decrementStock, hp]
  | cons it rest ih =>
    have hstep : decrementStock products (it :: rest)
        = decrementStock (products.map (fun p =>
            if p.id == it.productId then
              { p with stockQuantity := p.stockQuantity - intTrunc it.quantity }
            else p)) rest := rfl
    rw [hstep, ih, List.map_map]
    congr 1
    funext p
    by_cases hid : p.id = it.productId
    · have hb1 : (p.id == it.productId) = true := by
        simp [hid]
      have hb2 : (it.productId == p.id) = true := by
        simp [hid]
      simp only [Function.comp, hb1, if_true, truncSum, hb2]
      simp only [Product.mk.injEq, true_and, and_true]
      omega
    · have hb1 : (p.id == it.productId) = false := by
        simp [hid]
      have hb2 : (it.productId == p.id) = false := by
        simp only [beq_eq_false_iff_ne, ne_eq]
        intro h
        exact hid h.symm
      simp only [Function.comp, hb1, Bool.false_eq_true, if_false, truncSum, hb2]
      simp only [Product.mk.injEq, true_and, and_true]
      omega

/- Helper: the source's truthiness-guarded exhaustion test is the complement
   of the amended spec check (max_uses set and nonzero implies
   current_uses < max_uses). -/
theorem promoUsesExhausted_eq_not_spec (p : PromoCode) :
    promoUsesExhausted p = !specMaxUsesCheck p := by
  unfold promoUsesExhausted specMaxUsesCheck
  cases p.maxUses with
  | none => rfl
  | some m =>
    by_cases h0 : m = 0
    · subst h0
      simp
    · by_cases hc : p.currentUses < m
      · have hle : ¬ (m ≤ p.currentUses) := by omega
        simp [h0, hc, hle]
      · have hle : m ≤ p.currentUses := by omega
        simp [h0, hc, hle]

/-- C7: the claim fails on the code: the POS-view suspend route
(pos.py 635-661) performs no PENDING check, so it moves a COMPLETED
transaction to SUSPENDED and reports success — a transition out of
COMPLETED.  The service-layer suspend (transaction_service.py 163-176)
rejects the same call, confirming the intended behaviour the claim states. -/
theorem c7_pos_suspend_completed_transaction :
    PosView.suspend_transaction c7Store = Except.ok c7OutStore
    ∧ c7Transaction.status = TransactionStatus.completed
    ∧ (getTransaction c7OutStore 1).map Transaction.status
        = some TransactionStatus.suspended
    ∧ TransactionService.suspend_transaction c7Store 1
        = Except.error Err.transactionUnavailable :=
  ⟨rfl, rfl, rfl, rfl⟩

/-- C8 counterexample: cashier 1 owns a PENDING transaction (id 1), but the
session pointer is empty, so restoring their SUSPENDED transaction (id 2)
succeeds even though the claim requires it to fail with ConflictError while
any other PENDING transaction of that cashier exists. -/
theorem c8_restore_ignores_unpointed_pending :
    PosView.restore_transaction c8Store (some 2) 1 = Except.ok c8OutStore
    ∧ c8PendingT.status = TransactionStatus.pending
    ∧ c8PendingT.userId = some 1
    ∧ c8PendingT.id ≠ 2
    ∧ c8Store.transactions = [c8PendingT, c8SuspendedT]
    ∧ (getTransaction c8OutStore 2).map Transaction.status
        = some TransactionStatus.pending :=
  ⟨rfl, rfl, rfl, by decide, rfl, rfl⟩

/-- C9: the claim describes the intended behaviour, but apply_discount
(pos.py 782-821) converts the request value with float() and then mixes it
with Decimal columns: for a percentage discount the expression
transaction.subtotal * (discount_value / 100) multiplies a Decimal by a
float, which raises TypeError (rolled back, reported as a 500 error, no
discount applied); a fixed discount strictly between 0 and the subtotal
stores a float and makes the subsequent totals recomputation raise the same
TypeError. -/
theorem c9_apply_discount_type_error :
    PosView.apply_discount c9Dyn "percentage" 10 = Except.error Err.typeError
    ∧ PosView.apply_discount c9Dyn "fixed_amount" 50 = Except.error Err.typeError
    ∧ c9Dyn.subtotal = 100 := by
  refine ⟨rfl, ?_, rfl⟩
  have hlt : pyLt (.dec (100 : Rat)) (.flt 50) = false := by
    simp only [pyLt, pyVal]
    norm_num
  have hz : (pyVal (PyNum.flt (50 : Rat)) == 0) = false := by
    simp only [pyVal, beq_eq_false_iff_ne, ne_eq]
    norm_num
  simp [PosView.apply_discount, c9Dyn, hlt, updateTotalsDyn, pyOrZero, hz, pySub, Except.map]

/-- C3: in both completion implementations, a payment list whose sum differs
from total_amount by more than 0.01 is rejected with the payment-mismatch
validation error; the check precedes every store mutation, and the error
rolls the unit of work back, so no Payment row, stock change or promo
counter change survives and the transaction stays PENDING. -/
theorem c3_payment_mismatch_rejected (store : Store) (tid : Nat) (t : Transaction)
    (reqs : List PaymentRequest) (uid : Option Nat)
    (hs : store.sessionCurrent = some tid)
    (ht : getTransaction store tid = some t)
    (hp : t.status = TransactionStatus.pending)
    (hne : reqs ≠ [])
    (hmm : (1 : Rat) / 100 < |sumPayments reqs - t.totalAmount|) :
    PosView.complete_transaction store reqs uid = Except.error Err.paymentMismatch
    ∧ TransactionService.complete_transaction store tid reqs uid
        = Except.error Err.paymentMismatch := by
  have h1 : reqs.isEmpty = false := by
    simpa [List.isEmpty_iff] using hne
  constructor
  · simp only [PosView.complete_transaction, hs, ht, hp, eq_self_iff_true, if_true, h1,
      Bool.false_eq_true, if_false]
    rw [if_pos hmm]
  · simp only [TransactionService.complete_transaction, ht, hp, eq_self_iff_true, if_true]
    rw [if_pos hmm]

/-- C3 witness: the mismatch rejection evaluated on a concrete store with
total_amount 112.00 and a single 100.00 payment. -/
theorem c3_payment_mismatch_witness :
    PosView.complete_transaction c3Store c3Payments none = Except.error Err.paymentMismatch
    ∧ TransactionService.complete_transaction c3Store 1 c3Payments none
        = Except.error Err.paymentMismatch :=
  c3_payment_mismatch_rejected c3Store 1 c3Transaction c3Payments none rfl rfl rfl
    (by simp [c3Payments])
    (by norm_num [sumPayments, c3Payments, c3Transaction])

/-- C2: the claim fails on the code: completion re-checks nothing about
stock and simply subtracts int(quantity), so completing a transaction whose
item quantity (2) exceeds the product's current stock (1) succeeds and
leaves stock_quantity at -1 instead of being rejected and rolled back. -/
theorem c2_completion_drives_stock_negative :
    PosView.complete_transaction c2Store c2Payments (some 1) = Except.ok c2OutStore
    ∧ c2Product.stockQuantity = 1
    ∧ c2Item.quantity = 2
    ∧ c2OutStore.products = [c2OutProduct]
    ∧ c2OutProduct.stockQuantity = -1
    ∧ (getTransaction c2OutStore 1).map Transaction.status
        = some TransactionStatus.completed := by
  refine ⟨?_, rfl, rfl, rfl, rfl, rfl⟩
  have hmm : ¬ ((1 : Rat) / 100 < |sumPayments c2Payments - c2Transaction.totalAmount|) := by
    norm_num [sumPayments, c2Payments, c2Transaction]
  have hfloor : intTrunc (2 : Rat) = 2 := by
    norm_num [intTrunc]
  have h1 : c2Store.sessionCurrent = some 1 := rfl
  have h2 : getTransaction c2Store 1 = some c2Transaction := rfl
  have h3 : c2Transaction.status = TransactionStatus.pending := rfl
  have h4 : c2Payments.isEmpty = false := rfl
  have h5 : buildPayments c2Payments
      = Except.ok [{ method := .cash, amount := 224, referenceNumber := none }] := rfl
  have h6 : strTruthy c2Transaction.promoCodeUsed = false := rfl
  have h7 : decrementStock c2Store.products c2Transaction.items = [c2OutProduct] := by
    simp only [c2Store, c2Transaction, decrementStock, List.foldl_cons, List.foldl_nil,
      List.map_cons, List.map_nil, c2Item, c2Product]
    norm_num [hfloor, c2OutProduct]
  simp only [PosView.complete_transaction, h1, h2, h3, eq_self_iff_true, if_true, h4,
    Bool.false_eq_true, if_false]
  rw [if_neg hmm]
  simp only [h5, h6, Bool.false_eq_true, if_false, h7]
  simp [completeFinish, replaceTransaction, c2Store, c2Transaction, c2OutStore,
    c2OutTransaction, c2Item, c2OutProduct]

/- Helper: the C6 completion evaluated end to end. -/
theorem c6_complete_eval :
    PosView.complete_transaction c6Store c6Payments (some 1) = Except.ok c6OutStore := by
  have hmm : ¬ ((1 : Rat) / 100 < |sumPayments c6Payments - c6Transaction.totalAmount|) := by
    norm_num [sumPayments, c6Payments, c6Transaction]
  have hf : ⌊(5 / 2 : Rat)⌋ = 2 := by
    rw [Int.floor_eq_iff]
    norm_num
  have hfloor : intTrunc (5 / 2 : Rat) = 2 := by
    norm_num [intTrunc, hf]
  have h1 : c6Store.sessionCurrent = some 1 := rfl
  have h2 : getTransaction c6Store 1 = some c6Transaction := rfl
  have h3 : c6Transaction.status = TransactionStatus.pending := rfl
  have h4 : c6Payments.isEmpty = false := rfl
  have h5 : buildPayments c6Payments
      = Except.ok [{ method := .cash, amount := 280, referenceNumber := none }] := rfl
  have h6 : strTruthy c6Transaction.promoCodeUsed = false := rfl
  have h7 : decrementStock c6Store.products c6Transaction.items = [c6OutProduct] := by
    simp only [c6Store, c6Transaction, decrementStock, List.foldl_cons, List.foldl_nil,
      List.map_cons, List.map_nil, c6Item, c6Product]
    norm_num [hfloor, c6OutProduct]
  simp only [PosView.complete_transaction, h1, h2, h3, eq_self_iff_true, if_true, h4,
    Bool.false_eq_true, if_false]
  rw [if_neg hmm]
  simp only [h5, h6, Bool.false_eq_true, if_false, h7]
  simp [completeFinish, replaceTransaction, c6Store, c6Transaction, c6OutStore,
    c6OutTransaction, c6Item, c6OutProduct]

/-- C6 counterexample: completing a transaction holding 2.5 units against a
stock of 10 leaves stock_quantity = 8, because the code subtracts
int(item.quantity) = 2; the exact decrement the claim requires, 10 - 2.5,
is not what the code computes (it is not even 8 as a rational). -/
theorem c6_fractional_truncation_counterexample :
    PosView.complete_transaction c6Store c6Payments (some 1) = Except.ok c6OutStore
    ∧ c6Item.quantity = 5 / 2
    ∧ c6Product.stockQuantity = 10
    ∧ c6OutStore.products = [c6OutProduct]
    ∧ c6OutProduct.stockQuantity = 8
    ∧ ((10 : Rat) - 5 / 2 ≠ ((8 : Int) : Rat)) :=
  ⟨c6_complete_eval, rfl, rfl, rfl, rfl, by norm_num⟩

/-- C6 (amended): for every successful completion, each product's stock is
decremented by the sum over the transaction's items of int(quantity) — the
quantity truncated toward zero — rather than by the exact fractional
quantity. -/
theorem c6_stock_decrement_truncated (store : Store) (reqs : List PaymentRequest)
    (uid : Option Nat) (out : Store) (tid : Nat) (t : Transaction)
    (hs : store.sessionCurrent = some tid)
    (ht : getTransaction store tid = some t)
    (hok : PosView.complete_transaction store reqs uid = Except.ok out) :
    out.products = store.products.map
      (fun p => { p with stockQuantity := p.stockQuantity - truncSum t.items p.id }) := by
  rw [← decrementStock_eq]
  simp only [PosView.complete_transaction, hs, ht] at hok
  repeat' split at hok
  all_goals first
    | exact Except.noConfusion hok
    | (injection hok with h2; subst h2; rfl)

/-- C6 witness: the truncated-decrement law evaluated on the concrete C6
completion. -/
theorem c6_stock_decrement_witness :
    c6OutStore.products = c6Store.products.map
      (fun p =>
        { p with stockQuantity := p.stockQuantity - truncSum c6Transaction.items p.id }) :=
  c6_stock_decrement_truncated c6Store c6Payments (some 1) c6OutStore 1 c6Transaction rfl rfl
    c6_complete_eval

/- Helper: the C4 completion (promo deactivated in the interim) evaluated. -/
theorem c4_complete_eval :
    PosView.complete_transaction c4Store c4Payments (some 1) = Except.ok c4OutStore := by
  have hmm : ¬ ((1 : Rat) / 100 < |sumPayments c4Payments - c4Transaction.totalAmount|) := by
    norm_num [sumPayments, c4Payments, c4Transaction]
  have hfloor : intTrunc (1 : Rat) = 1 := by
    norm_num [intTrunc]
  have h1 : c4Store.sessionCurrent = some 1 := rfl
  have h2 : getTransaction c4Store 1 = some c4Transaction := rfl
  have h3 : c4Transaction.status = TransactionStatus.pending := rfl
  have h4 : c4Payments.isEmpty = false := rfl
  have h5 : buildPayments c4Payments
      = Except.ok [{ method := .cash, amount := 102, referenceNumber := none }] := rfl
  have h6 : strTruthy c4Transaction.promoCodeUsed = true := rfl
  have h7 : decrementStock c4Store.products c4Transaction.items = [c4OutProduct] := by
    simp only [c4Store, c4Transaction, decrementStock, List.foldl_cons, List.foldl_nil,
      List.map_cons, List.map_nil, c4Item, c4Product]
    norm_num [hfloor, c4OutProduct]
  have h8 : findActivePromo c4Store.promos (c4Transaction.promoCodeUsed.getD "") = none := by
    decide
  simp only [PosView.complete_transaction, h1, h2, h3, eq_self_iff_true, if_true, h4,
    Bool.false_eq_true, if_false]
  rw [if_neg hmm]
  simp only [h5, h6, if_true, h8, h7]
  simp [completeFinish, replaceTransaction, c4Store, c4Transaction, c4OutStore,
    c4OutTransaction, c4Item, c4OutProduct]

/-- C4 counterexample: the transaction carries promo code "SAVE", the promo
row was deactivated after application, and completion nevertheless succeeds
— the transaction becomes COMPLETED while every promo's current_uses is left
unchanged, contradicting the claim that a successful completion increments
the applied promo's counter by exactly 1. -/
theorem c4_inactive_promo_counterexample :
    PosView.complete_transaction c4Store c4Payments (some 1) = Except.ok c4OutStore
    ∧ c4Transaction.promoCodeUsed = some "SAVE"
    ∧ c4Promo.isActive = false
    ∧ c4Promo.currentUses = 3
    ∧ c4OutStore.promos = c4Store.promos
    ∧ (getTransaction c4OutStore 1).map Transaction.status
        = some TransactionStatus.completed :=
  ⟨c4_complete_eval, rfl, rfl, rfl, rfl, rfl⟩

/-- C4 (amended): current_uses is never changed by applying a promo, by
removing one, or by a failed completion (errors roll the unit of work back);
a successful completion increments the applied promo's counter by exactly 1
provided the promo is still found active at completion time, and a
successful completion whose applied promo is no longer found (deactivated or
deleted) leaves every promo unchanged. -/
theorem c4_promo_uses_accounting :
    (∀ (store : Store) (rawCode : String) (now : Int) (out : Store),
        PosView.apply_promo_to_transaction store rawCode now = Except.ok out →
        out.promos = store.promos)
    ∧ (∀ (store out : Store),
        PosView.remove_promo_from_transaction store = Except.ok out →
        out.promos = store.promos)
    ∧ (∀ (store : Store) (reqs : List PaymentRequest) (uid : Option Nat) (out : Store)
        (tid : Nat) (t : Transaction) (code : String),
        store.sessionCurrent = some tid →
        getTransaction store tid = some t →
        t.promoCodeUsed = some code →
        strTruthy t.promoCodeUsed = true →
        PosView.complete_transaction store reqs uid = Except.ok out →
        (findActivePromo store.promos code = none → out.promos = store.promos)
        ∧ (∀ p : PromoCode, findActivePromo store.promos code = some p →
            findActivePromo out.promos code = some (bumpUses p))) := by
  refine ⟨?_, ?_, ?_⟩
  · intro store rawCode now out h
    simp only [PosView.apply_promo_to_transaction] at h
    repeat' split at h
    all_goals first
      | exact Except.noConfusion h
      | (injection h with h2; subst h2; rfl)
  · intro store out h
    simp only [PosView.remove_promo_from_transaction] at h
    repeat' split at h
    all_goals first
      | exact Except.noConfusion h
      | (injection h with h2; subst h2; rfl)
  · intro store reqs uid out tid t code hs ht hcode htr h
    have htr2 : strTruthy (some code) = true := by
      rw [← hcode]
      exact htr
    simp only [PosView.complete_transaction, hs, ht, hcode, Option.getD_some, htr2,
      if_true] at h
    cases hfind : findActivePromo store.promos code with
    | none =>
      constructor
      · intro _
        simp only [hfind] at h
        repeat' split at h
        all_goals first
          | exact Except.noConfusion h
          | (injection h with h2; subst h2; rfl)
      · intro p hp
        exact Option.noConfusion hp
    | some promo =>
      constructor
      · intro hnone
        exact Option.noConfusion hnone
      · intro p hp
        injection hp with hp2
        subst hp2
        simp only [hfind] at h
        repeat' split at h
        all_goals first
          | exact Except.noConfusion h
          | (injection h with h2; subst h2;
             exact findActivePromo_updateFirst store.promos code promo hfind)

/- Helper: the C4 witness completion (promo still active) evaluated. -/
theorem c4w_complete_eval :
    PosView.complete_transaction c4wStore c4Payments (some 1) = Except.ok c4wOutStore := by
  have hmm : ¬ ((1 : Rat) / 100 < |sumPayments c4Payments - c4Transaction.totalAmount|) := by
    norm_num [sumPayments, c4Payments, c4Transaction]
  have hfloor : intTrunc (1 : Rat) = 1 := by
    norm_num [intTrunc]
  have h1 : c4wStore.sessionCurrent = some 1 := rfl
  have h2 : getTransaction c4wStore 1 = some c4Transaction := rfl
  have h3 : c4Transaction.status = TransactionStatus.pending := rfl
  have h4 : c4Payments.isEmpty = false := rfl
  have h5 : buildPayments c4Payments
      = Except.ok [{ method := .cash, amount := 102, referenceNumber := none }] := rfl
  have h6 : strTruthy c4Transaction.promoCodeUsed = true := rfl
  have h7 : decrementStock c4wStore.products c4Transaction.items = [c4OutProduct] := by
    simp only [c4wStore, c4Transaction, decrementStock, List.foldl_cons, List.foldl_nil,
      List.map_cons, List.map_nil, c4Item, c4Product]
    norm_num [hfloor, c4OutProduct]
  have h8 : findActivePromo c4wStore.promos (c4Transaction.promoCodeUsed.getD "")
      = some c4wPromo := by
    decide
  have h9 : promoUsesExhausted c4wPromo = false := rfl
  have h10 : updateFirst c4wStore.promos
      (fun p => promoMatch p (c4Transaction.promoCodeUsed.getD "")) bumpUses
      = [c4wOutPromo] := by
    decide
  simp only [PosView.complete_transaction, h1, h2, h3, eq_self_iff_true, if_true, h4,
    Bool.false_eq_true, if_false]
  rw [if_neg hmm]
  simp only [h5, h6, if_true, h8, h9, Bool.false_eq_true, if_false, h10, h7]
  simp [completeFinish, replaceTransaction, c4wStore, c4Transaction, c4wOutStore,
    c4OutTransaction, c4Item, c4OutProduct]

/-- C4 witness: the increment law applied to a concrete completion whose
promo is still active: the counter goes from 3 to 4. -/
theorem c4_promo_uses_witness :
    findActivePromo c4wOutStore.promos "SAVE" = some (bumpUses c4wPromo) :=
  (c4_promo_uses_accounting.2.2 c4wStore c4Payments (some 1) c4wOutStore 1 c4Transaction
      "SAVE" rfl rfl rfl rfl c4w_complete_eval).2 c4wPromo (by decide)

/- Helper: the C5 application evaluated end to end. -/
theorem c5_apply_eval :
    PosView.apply_promo_to_transaction c5Store "save10" 0 = Except.ok c5OutStore := by
  have hcode : strStrip (strUpper "save10") = "SAVE10" := by decide
  have hne : (("SAVE10" : String) == "") = false := by decide
  have h1 : c5Store.sessionCurrent = some 1 := rfl
  have h2 : getTransaction c5Store 1 = some c5Transaction := rfl
  have h3 : c5Transaction.status = TransactionStatus.pending := rfl
  have h4 : strTruthy c5Transaction.promoCodeUsed = false := rfl
  have h5 : findActivePromo c5Store.promos "SAVE10" = some c5Promo := by decide
  have h6 : promoStartBlocked c5Promo 0 = false := rfl
  have h7 : promoEndBlocked c5Promo 0 = false := rfl
  have h8 : promoUsesExhausted c5Promo = false := rfl
  have h9 : ¬ (c5Transaction.subtotal < c5Promo.minAmount) := by
    norm_num [c5Transaction, c5Promo]
  have h10 : promoDiscount c5Promo c5Transaction.subtotal = 64 := by
    norm_num [promoDiscount, c5Promo, c5Transaction]
  simp only [PosView.apply_promo_to_transaction, hcode, h1, hne, Bool.false_eq_true,
    if_false, h2, h3, eq_self_iff_true, if_true, h4, h5, h6, h7, h8]
  rw [if_neg h9]
  simp only [h10]
  norm_num [PosView.update_transaction_totals, subtotalOf, replaceTransaction, c5Store,
    c5Transaction, c5Item, c5OutStore, c5OutTransaction]

/-- C5 counterexample: a promo with max_uses = 0 — a set value, with
current_uses = 0 already at the limit — is accepted and applied, because
`if promo.max_uses and ...` treats 0 as falsy and skips check (5) entirely;
the claim requires the application to be rejected with the exhausted error
since current_uses < max_uses fails. -/
theorem c5_max_uses_zero_counterexample :
    PosView.apply_promo_to_transaction c5Store "save10" 0 = Except.ok c5OutStore
    ∧ c5Promo.maxUses = some 0
    ∧ c5Promo.currentUses = 0
    ∧ c5Store.promos = [c5Promo]
    ∧ (getTransaction c5OutStore 1).map Transaction.discountAmount = some 64 :=
  ⟨c5_apply_eval, rfl, rfl, rfl, rfl⟩

/-- C5 (amended): ApplyPromo validates in exactly the claimed short-circuit
order — (1) transaction exists and is PENDING, (2) no promo already
applied, (3) the code exists case-insensitively and is active, (4) the
current time lies within whichever of start_date/end_date are set, (5) if
max_uses is set AND NONZERO then current_uses < max_uses (max_uses = 0
behaves as unlimited, like null), (6) subtotal ≥ min_amount — the first
failing check determining the error, and the discount is applied only if
all checks pass: the implementation equals the spec-side ordered checker at
every input. -/
theorem c5_apply_promo_order (store : Store) (rawCode : String) (now : Int) :
    PosView.apply_promo_to_transaction store rawCode now
      = applyPromoSpecOrdered store rawCode now := by
  simp only [PosView.apply_promo_to_transaction, applyPromoSpecOrdered,
    promoUsesExhausted_eq_not_spec]

/-- C8 (amended): restore succeeds only for a SUSPENDED transaction owned by
the requesting cashier, and only when the session's active-transaction
pointer does not reference a currently-PENDING transaction; when it does,
restore fails with the conflict error (and the rollback semantics leave
every status unchanged).  PENDING transactions of the same cashier that the
session pointer does not reference do not block restore. -/
theorem c8_restore_guards :
    (∀ (store : Store) (tid uid : Nat) (out : Store),
        PosView.restore_transaction store (some tid) uid = Except.ok out →
        (∃ t, findOwnedTransaction store tid uid = some t
            ∧ t.status = TransactionStatus.suspended)
        ∧ (∀ (cid : Nat) (ct : Transaction), store.sessionCurrent = some cid → cid ≠ 0 →
            getTransaction store cid = some ct →
            ct.status ≠ TransactionStatus.pending))
    ∧ (∀ (store : Store) (tid uid cid : Nat) (ct : Transaction),
        tid ≠ 0 →
        store.sessionCurrent = some cid → cid ≠ 0 →
        getTransaction store cid = some ct →
        ct.status = TransactionStatus.pending →
        PosView.restore_transaction store (some tid) uid
          = Except.error Err.conflictActiveTransaction) := by
  have hconf : ∀ (store : Store) (tid uid cid : Nat) (ct : Transaction),
      tid ≠ 0 →
      store.sessionCurrent = some cid → cid ≠ 0 →
      getTransaction store cid = some ct →
      ct.status = TransactionStatus.pending →
      PosView.restore_transaction store (some tid) uid
        = Except.error Err.conflictActiveTransaction := by
    intro store tid uid cid ct htid hs hcid hct hp
    have h1 : optNatTruthy (some tid) = true := by
      simp [optNatTruthy, htid]
    have h2 : optNatTruthy (some cid) = true := by
      simp [optNatTruthy, hcid]
    simp [PosView.restore_transaction, h1, hs, h2, Option.getD_some, hct, hp]
  refine ⟨?_, hconf⟩
  intro store tid uid out hok
  have htid : tid ≠ 0 := by
    intro h0
    subst h0
    simp [PosView.restore_transaction, optNatTruthy] at hok
  have h1 : optNatTruthy (some tid) = true := by
    simp [optNatTruthy, htid]
  constructor
  · simp only [PosView.restore_transaction, h1, Bool.not_true, Bool.false_eq_true, if_false,
      Option.getD_some] at hok
    repeat' split at hok
    all_goals
      first
        | exact Except.noConfusion hok
        | (rename_i t hfind hsusp
           exact ⟨t, hfind, hsusp⟩)
  · intro cid ct hs hcid hct hpend
    have hc := hconf store tid uid cid ct htid hs hcid hct hpend
    rw [hc] at hok
    exact Except.noConfusion hok

/-- C8 witness: the amended guards evaluated on concrete stores — the
successful restore of the suspended transaction (empty session pointer),
and the conflict rejection when the session pointer references a PENDING
transaction. -/
theorem c8_restore_guards_witness :
    (∃ t, findOwnedTransaction c8Store 2 1 = some t
        ∧ t.status = TransactionStatus.suspended)
    ∧ PosView.restore_transaction c8ConflictStore (some 2) 1
        = Except.error Err.conflictActiveTransaction :=
  ⟨(c8_restore_guards.1 c8Store 2 1 c8OutStore rfl).1,
   c8_restore_guards.2 c8ConflictStore 2 1 1 c8PendingT (by decide) rfl (by decide) rfl rfl⟩

/-- C1 witness: the amended totals equations evaluated at the concrete C1
transaction. -/
theorem c1_totals_witness :
    (PosView.update_transaction_totals c1Transaction).subtotal
        = subtotalOf c1Transaction.items
    ∧ (TransactionService.update_transaction_totals c1Transaction).taxAmount
        = ((TransactionService.update_transaction_totals c1Transaction).subtotal
            - (TransactionService.update_transaction_totals c1Transaction).discountAmount)
          * (12 / 100) :=
  ⟨(c1_totals_after_recomputation c1Transaction).2.1,
   (c1_totals_after_recomputation c1Transaction).1.2.1⟩

/-- C5 witness: the order-equivalence evaluated at the concrete C5 input. -/
theorem c5_apply_promo_order_witness :
    PosView.apply_promo_to_transaction c5Store "save10" 0
      = applyPromoSpecOrdered c5Store "save10" 0 :=
  c5_apply_promo_order c5Store "save10" 0

/-- C10 witness: with a zero transaction-level discount the two totals
implementations agree on the concrete input. -/
theorem c10_totals_agree_witness :
    PosView.update_transaction_totals c10ZeroTransaction
      = TransactionService.update_transaction_totals c10ZeroTransaction :=
  (c10_totals_agree_iff_no_discount c10ZeroTransaction).mpr rfl
